import Mathlib

/-!
Verification development for the résumé-to-job-description matching and
scoring engine (`ats_app/utils/score_calculator.py` and
`ats_app/utils/nlp_processor.py`).

The pure computational logic of the Python source is embedded shallowly:

* Python floats are modelled as exact rationals (`ℚ`) in the score
  calculator, and as reals (`ℝ`) in the TF-IDF / embedding similarity
  models, where logarithms and square roots appear.
* Python sets are modelled as first-occurrence-deduplicated lists
  (`pyDedup`), with intersection / difference as membership filters; only
  cardinalities and emptiness of these sets feed into scores.
* External NLP resources that are not part of the repository (the spaCy
  pipeline, the NLTK preprocessing chain, and the sentence-embedding
  model) are passed in as oracle parameters (`NLPOracle`, `BertOracle`):
  every theorem quantifies over them, so nothing is assumed about their
  behaviour beyond types and, where stated, the documented `[0, 1]`
  similarity range.
* Library calls with defined behaviour (`round`, `min`/`max`, substring
  containment, and scikit-learn's vectorizer, which raises an
  empty-vocabulary error when no document contributes a term) are
  modelled directly.
-/

namespace ATS

/-- Python's `needle in hay` on strings: contiguous substring containment. -/
def pyIn (needle hay : String) : Bool := decide (needle.toList <:+: hay.toList)

/-- Python's `str.lower()` (character-wise, which agrees on ASCII input). -/
def pyLower (s : String) : String := String.mk (s.data.map Char.toLower)

/-- Python's `str.strip()`: drop leading and trailing whitespace. -/
def pyStrip (s : String) : String :=
  String.mk (((s.data.dropWhile Char.isWhitespace).reverse.dropWhile
    Char.isWhitespace).reverse)

/-- A Python `set(...)` built from a list, modelled as the list of first
occurrences. Only cardinality, membership and emptiness of the result are
ever used by the scoring logic. -/
def pyDedup {α : Type} [DecidableEq α] (l : List α) : List α :=
  l.foldl (fun acc x => if x ∈ acc then acc else acc ++ [x]) []

/-- Set intersection on the deduplicated-list model. -/
def pyInterSet (a b : List String) : List String :=
  a.filter (fun x => decide (x ∈ b))

/-- Set difference on the deduplicated-list model. -/
def pyDiffSet (a b : List String) : List String :=
  a.filter (fun x => decide (x ∉ b))

/-- Total order on strings (kernel-computable lexicographic order on the
underlying character lists), used wherever a canonical enumeration order
of a set of strings is needed. -/
def strRel (s t : String) : Prop := s.data ≤ t.data

instance : DecidableRel strRel :=
  fun s t => inferInstanceAs (Decidable (s.data ≤ t.data))

instance : IsTrans String strRel := ⟨fun _ _ _ h₁ h₂ => le_trans h₁ h₂⟩

instance : IsTotal String strRel := ⟨fun a b => le_total a.data b.data⟩

instance : IsAntisymm String strRel :=
  ⟨fun _ _ h₁ h₂ => String.ext (le_antisymm h₁ h₂)⟩

/-- Python's round-half-to-even on an exact rational, to an integer. -/
def pyRoundHalfEven (x : ℚ) : ℤ :=
  if x - ⌊x⌋ < 1/2 then ⌊x⌋
  else if 1/2 < x - ⌊x⌋ then ⌊x⌋ + 1
  else if ⌊x⌋ % 2 = 0 then ⌊x⌋ else ⌊x⌋ + 1

/-- Python's `round(x, 1)`: round half to even at one decimal place. -/
def pyRound1 (x : ℚ) : ℚ := (pyRoundHalfEven (x * 10) : ℚ) / 10

/-! ## Data model of the score calculator

`ResumeData` mirrors the dictionary produced by the ingestion layer
(`text_extractor.py`) and consumed by `ATSScoreCalculator`:

* `metadata` is `none` when the `metadata` key is absent or has no
  `formatting_issues` entry (the code treats these identically:
  `resume_data.get('metadata', {})` followed by a key-and-truthiness
  check), and `some l` when a `formatting_issues` list `l` is present;
* `structured_content` is `none` when the `structured_content` key is
  absent, and inside it `paragraphs` is `none` when the dictionary lacks a
  `paragraphs` key (or is empty, hence falsy). -/

structure Paragraph where
  text : String
deriving DecidableEq

structure StructuredContent where
  paragraphs : Option (List Paragraph)
deriving DecidableEq

structure ResumeData where
  text : String
  structured_content : Option StructuredContent
  metadata : Option (List String)

/-- Oracle bundling the results of the external NLP components used by the
score calculator: `extract_keywords text top_k` stands for the keyword
strings returned by the TF-IDF keyword extractor, `extract_skills_other`
for the spaCy-derived `other` skill bucket of `extract_skills`, and
`tfidfSim` / `bertSim` for the two similarity scores. -/
structure NLPOracle where
  extract_keywords : String → ℕ → List String
  extract_skills_other : String → List String
  tfidfSim : String → String → ℚ
  bertSim : String → String → ℚ

/-- The hard-coded skill catalog of `NLPProcessor.skill_patterns`. -/
def skill_patterns : List (String × List String) :=
  [("programming_languages",
    ["python", "java", "javascript", "c++", "c#", "ruby", "php", "swift",
     "kotlin", "typescript", "go", "rust", "scala", "r", "matlab", "perl",
     "vb.net"]),
   ("web_technologies",
    ["html", "css", "react", "angular", "vue", "node.js", "express",
     "django", "flask", "spring", "asp.net", "laravel", "ruby on rails",
     "jquery"]),
   ("databases",
    ["mysql", "postgresql", "mongodb", "sqlite", "oracle", "sql server",
     "redis", "cassandra", "elasticsearch", "dynamodb"]),
   ("cloud_platforms",
    ["aws", "azure", "gcp", "google cloud", "heroku", "digitalocean",
     "docker", "kubernetes", "terraform"]),
   ("tools",
    ["git", "jenkins", "jira", "confluence", "slack", "figma", "photoshop",
     "illustrator", "tableau", "power bi", "excel"])]

/-- `NLPProcessor.extract_skills`: catalog skills matched by raw substring
containment against the lower-cased text, plus the spaCy-derived `other`
bucket (supplied by the oracle, deduplicated as `list(set(...))`). -/
def extract_skills (text : String) (other : List String) :
    List (String × List String) :=
  (skill_patterns.map
    (fun cs => (cs.1, cs.2.filter (fun s => pyIn s (pyLower text)))))
    ++ [("other", pyDedup other)]

/-- Flatten a by-category skill map into one lower-cased skill set
(`resume_all_skills` / `jd_all_skills` in `_calculate_skill_score`). -/
def flattenSkills (skills : List (String × List String)) : List String :=
  pyDedup (((skills.map Prod.snd).foldr (· ++ ·) []).map pyLower)

/-- The flattened job-description skill set used by the skill sub-score. -/
def jdAllSkillsOf (o : NLPOracle) (jd_text : String) : List String :=
  flattenSkills (extract_skills jd_text (o.extract_skills_other jd_text))

/-- The flattened résumé skill set used by the skill sub-score. -/
def resumeAllSkillsOf (o : NLPOracle) (resume_text : String) : List String :=
  flattenSkills (extract_skills resume_text (o.extract_skills_other resume_text))

/-- The matched-skill set (`resume_all_skills.intersection(jd_all_skills)`). -/
def matchedSkillsOf (o : NLPOracle) (resume_text jd_text : String) : List String :=
  pyInterSet (resumeAllSkillsOf o resume_text) (jdAllSkillsOf o jd_text)

structure KeywordScoreData where
  score : ℚ
  matched_keywords : List String
  missing_keywords : List String
  total_jd_keywords : ℕ
  matched_count : ℕ

structure SkillScoreData where
  score : ℚ
  matched_skills : List String
  missing_skills : List String
  resume_skills_by_category : List (String × List String)
  jd_skills_by_category : List (String × List String)
  total_jd_skills : ℕ
  matched_count : ℕ

structure SemanticScoreData where
  score : ℚ
  tfidf_similarity : ℚ
  bert_similarity : ℚ

structure ExperienceScoreData where
  score : ℚ
  details : Option String
  experience_paragraphs_count : Option ℕ
deriving DecidableEq

structure FormattingScoreData where
  score : ℚ
  issues : List String

structure AnalysisResult where
  total_score : ℚ
  keyword_match : KeywordScoreData
  skill_match : SkillScoreData
  semantic_similarity : SemanticScoreData
  experience_relevance : ExperienceScoreData
  formatting_quality : FormattingScoreData
  suggestions : List String
  missing_skills : List String
  missing_keywords : List String

/-- `ATSScoreCalculator._calculate_keyword_score`. -/
def calculate_keyword_score (o : NLPOracle) (resume_text jd_text : String) :
    KeywordScoreData :=
  let jd_keyword_set := pyDedup ((o.extract_keywords jd_text 30).map pyLower)
  let resume_keyword_set := pyDedup ((o.extract_keywords resume_text 50).map pyLower)
  let matched_keywords := pyInterSet jd_keyword_set resume_keyword_set
  let missing_keywords := pyDiffSet jd_keyword_set resume_keyword_set
  let score : ℚ :=
    if 0 < jd_keyword_set.length then
      min ((matched_keywords.length : ℚ) / (jd_keyword_set.length : ℚ) * 100) 100
    else 0
  { score := score
    matched_keywords := matched_keywords
    missing_keywords := missing_keywords
    total_jd_keywords := jd_keyword_set.length
    matched_count := matched_keywords.length }

/-- `ATSScoreCalculator._calculate_skill_score`. -/
def calculate_skill_score (o : NLPOracle) (resume_text jd_text : String) :
    SkillScoreData :=
  let resume_skills := extract_skills resume_text (o.extract_skills_other resume_text)
  let jd_skills := extract_skills jd_text (o.extract_skills_other jd_text)
  let resume_all_skills := resumeAllSkillsOf o resume_text
  let jd_all_skills := jdAllSkillsOf o jd_text
  let matched_skills := matchedSkillsOf o resume_text jd_text
  let missing_skills := pyDiffSet jd_all_skills resume_all_skills
  let score : ℚ :=
    if 0 < jd_all_skills.length then
      min ((matched_skills.length : ℚ) / (jd_all_skills.length : ℚ) * 100) 100
    else 50
  { score := score
    matched_skills := matched_skills
    missing_skills := missing_skills
    resume_skills_by_category := resume_skills
    jd_skills_by_category := jd_skills
    total_jd_skills := jd_all_skills.length
    matched_count := matched_skills.length }

/-- `ATSScoreCalculator._calculate_semantic_score` (the similarity values
themselves come from the oracle). -/
def calculate_semantic_score (o : NLPOracle) (resume_text jd_text : String) :
    SemanticScoreData :=
  let tfidf_score := o.tfidfSim resume_text jd_text * 100
  let bert_score := o.bertSim resume_text jd_text * 100
  { score := tfidf_score * 0.4 + bert_score * 0.6
    tfidf_similarity := tfidf_score
    bert_similarity := bert_score }

/-- The experience-indicator words of `_calculate_experience_score`. -/
def experience_keywords : List String :=
  ["experience", "worked", "developed", "managed", "led", "responsible",
   "achieved"]

/-- The texts of the paragraphs whose lower-cased text contains an
experience-indicator word. -/
def experienceParagraphTexts (paragraphs : List Paragraph) : List String :=
  (paragraphs.filter
    (fun para => experience_keywords.any (fun k => pyIn k (pyLower para.text)))).map
    Paragraph.text

/-- The `paragraphs` list reachable from an optional structured-content
value; `none` when `structured_content` is falsy or lacks the key. -/
def paragraphsOf (structured_content : Option StructuredContent) :
    Option (List Paragraph) :=
  structured_content.bind (fun sc => sc.paragraphs)

/-- `ATSScoreCalculator._calculate_experience_score`. -/
def calculate_experience_score (o : NLPOracle)
    (structured_content : Option StructuredContent) (jd_text : String) :
    ExperienceScoreData :=
  match paragraphsOf structured_content with
  | none => { score := 30
              details := some "Unable to analyze experience structure"
              experience_paragraphs_count := none }
  | some paragraphs =>
    let experience_paragraphs := experienceParagraphTexts paragraphs
    if experience_paragraphs.isEmpty then
      { score := 20
        details := some "No clear experience section found"
        experience_paragraphs_count := none }
    else
      let experience_text := String.intercalate " " experience_paragraphs
      { score := o.bertSim experience_text jd_text * 100
        details := none
        experience_paragraphs_count := some experience_paragraphs.length }

/-- `ATSScoreCalculator._calculate_formatting_score`. -/
def calculate_formatting_score (rd : ResumeData) : FormattingScoreData :=
  let formatting_issues := rd.metadata.getD []
  let d1 : ℚ × List String :=
    if formatting_issues = [] then (100, [])
    else (100 - (formatting_issues.length : ℚ) * 10, formatting_issues)
  let text_length := rd.text.length
  let d2 : ℚ × List String :=
    if text_length < 500 then (d1.1 - 20, d1.2 ++ ["Resume appears too short"])
    else if 5000 < text_length then (d1.1 - 10, d1.2 ++ ["Resume might be too long"])
    else d1
  let d3 : ℚ × List String :=
    match rd.structured_content with
    | some structured =>
      if (structured.paragraphs.getD []).length < 3 then
        (d2.1 - 15, d2.2 ++ ["Lacks proper paragraph structure"])
      else d2
    | none => d2
  { score := max d3.1 0, issues := d3.2 }

def suggestionKeywordMsg (missing : List String) : String :=
  "Add these important keywords: " ++ String.intercalate ", " (missing.take 5)

def suggestionSkillMsg (missing : List String) : String :=
  "Consider adding these skills: " ++ String.intercalate ", " (missing.take 5)

def semanticMsg : String :=
  "Improve content relevance by using more job-specific language"

def experienceMsg : String :=
  "Highlight more relevant work experience and achievements"

def fixFormattingMsg (issue : String) : String := "Fix formatting: " ++ issue

def affirmationMsg : String :=
  "Great job! Your resume shows good alignment with the job requirements."

/-- `ATSScoreCalculator._generate_suggestions`. -/
def generate_suggestions (keyword_data : KeywordScoreData)
    (skill_data : SkillScoreData) (semantic_data : SemanticScoreData)
    (experience_data : ExperienceScoreData)
    (formatting_data : FormattingScoreData) : List String :=
  let s1 :=
    if keyword_data.score < 60 then
      if keyword_data.missing_keywords = [] then []
      else [suggestionKeywordMsg keyword_data.missing_keywords]
    else []
  let s2 :=
    if skill_data.score < 70 then
      if skill_data.missing_skills = [] then []
      else [suggestionSkillMsg skill_data.missing_skills]
    else []
  let s3 := if semantic_data.score < 50 then [semanticMsg] else []
  let s4 := if experience_data.score < 60 then [experienceMsg] else []
  let s5 :=
    if formatting_data.score < 80 then formatting_data.issues.map fixFormattingMsg
    else []
  let suggestions := s1 ++ s2 ++ s3 ++ s4 ++ s5
  if suggestions = [] then [affirmationMsg] else suggestions

/-- `ATSScoreCalculator.calculate_ats_score`. -/
def calculate_ats_score (o : NLPOracle) (resume_data : ResumeData)
    (jd_text : String) : AnalysisResult :=
  let resume_text := resume_data.text
  let keyword_score_data := calculate_keyword_score o resume_text jd_text
  let skill_score_data := calculate_skill_score o resume_text jd_text
  let semantic_score_data := calculate_semantic_score o resume_text jd_text
  let experience_score_data :=
    calculate_experience_score o resume_data.structured_content jd_text
  let formatting_score_data := calculate_formatting_score resume_data
  let total_score :=
    keyword_score_data.score * 0.30 +
    skill_score_data.score * 0.25 +
    semantic_score_data.score * 0.20 +
    experience_score_data.score * 0.15 +
    formatting_score_data.score * 0.10
  { total_score := pyRound1 total_score
    keyword_match := keyword_score_data
    skill_match := skill_score_data
    semantic_similarity := semantic_score_data
    experience_relevance := experience_score_data
    formatting_quality := formatting_score_data
    suggestions :=
      generate_suggestions keyword_score_data skill_score_data
        semantic_score_data experience_score_data formatting_score_data
    missing_skills := skill_score_data.missing_skills
    missing_keywords := keyword_score_data.missing_keywords }

/-! ## Term-weighting (TF-IDF) similarity model

`NLPProcessor.calculate_tfidf_similarity` fits a scikit-learn
`TfidfVectorizer(max_features=1000, ngram_range=(1, 2))` over exactly the
two preprocessed documents. The preprocessing chain (NLTK tokenizer,
stop-word removal, lemmatisation, and the vectorizer's own analyzer) is
external, so the model takes the two documents as their final token
lists. The vectorizer itself is modelled by its defined behaviour:
vocabulary = sorted distinct 1-2-grams of the corpus, capped at the top
1000 by corpus frequency; weights = term count times smooth idf
`ln((1+n)/(1+df)) + 1`; rows L2-normalised; and a `ValueError` (empty
vocabulary) is raised when no document contributes any term. -/

/-- 1-grams and 2-grams of a token list, `ngram_range=(1, 2)`. -/
def ngrams2 (ts : List String) : List String :=
  ts ++ List.zipWith (fun a b => a ++ " " ++ b) ts ts.tail

/-- 1-, 2- and 3-grams of a token list, `ngram_range=(1, 3)`. -/
def ngrams3 (ts : List String) : List String :=
  ts ++ List.zipWith (fun a b => a ++ " " ++ b) ts ts.tail
    ++ List.zipWith (fun a bc => a ++ " " ++ bc) ts
        (List.zipWith (fun b c => b ++ " " ++ c) ts.tail ts.tail.tail)

/-- Ordering by descending corpus term frequency (ties alphabetical),
used for the `max_features` cutoff. -/
def countOrder (pool : List String) (t₁ t₂ : String) : Prop :=
  pool.count t₂ < pool.count t₁ ∨
    (pool.count t₁ = pool.count t₂ ∧ strRel t₁ t₂)

instance (pool : List String) : DecidableRel (countOrder pool) := fun a b =>
  inferInstanceAs (Decidable
    (pool.count b < pool.count a ∨ (pool.count a = pool.count b ∧ strRel a b)))

/-- The vectorizer vocabulary over a corpus-wide pool of n-grams: sorted
distinct terms, restricted to the `cap` most frequent when the pool has
more distinct terms than `cap`. -/
def vocabularyOf (pool : List String) (cap : ℕ) : List String :=
  let distinct := pyDedup (List.insertionSort strRel pool)
  if distinct.length ≤ cap then distinct
  else List.insertionSort strRel
    ((List.insertionSort (countOrder pool) distinct).take cap)

/-- Vocabulary fitted jointly over the two documents (`max_features=1000`). -/
def vocabulary (ta tb : List String) : List String :=
  vocabularyOf (ngrams2 ta ++ ngrams2 tb) 1000

/-- Document frequency of a term over the two-document corpus. -/
def docFreq (ta tb : List String) (t : String) : ℕ :=
  (if t ∈ ngrams2 ta then 1 else 0) + (if t ∈ ngrams2 tb then 1 else 0)

/-- scikit-learn's smooth idf, `ln((1+n)/(1+df)) + 1`, for an `n`-document
corpus. -/
noncomputable def idfSmooth (n df : ℕ) : ℝ :=
  Real.log ((1 + (n : ℝ)) / (1 + (df : ℝ))) + 1

/-- Dot product of two coordinate lists. -/
def dotR (u v : List ℝ) : ℝ := (List.zipWith (· * ·) u v).sum

open Classical in
/-- L2 row normalisation; a zero row is left unchanged (scikit-learn's
`normalize`). -/
noncomputable def l2normalize (v : List ℝ) : List ℝ :=
  if dotR v v = 0 then v
  else v.map (fun x => x / Real.sqrt (dotR v v))

open Classical in
/-- Cosine similarity as computed by `sklearn.metrics.pairwise.cosine_similarity`:
both rows are L2-normalised (zero rows staying zero, hence similarity `0`)
and then dotted. -/
noncomputable def cosineSimR (u v : List ℝ) : ℝ :=
  if dotR u u = 0 ∨ dotR v v = 0 then 0
  else dotR u v / (Real.sqrt (dotR u u) * Real.sqrt (dotR v v))

/-- Raw (unnormalised) TF-IDF vector of document `d` over a vocabulary,
with a supplied document-frequency function for the fitted corpus. -/
noncomputable def tfidfVector (vocab : List String) (df : String → ℕ)
    (d : List String) : List ℝ :=
  vocab.map (fun t => ((ngrams2 d).count t : ℝ) * idfSmooth 2 (df t))

structure MatchingTerm where
  term : String
  resume_score : ℝ
  jd_score : ℝ
  combined_score : ℝ

structure TfidfResult where
  similarity_score : ℝ
  matching_terms : List MatchingTerm
  resume_vector : List ℝ
  jd_vector : List ℝ

/-- The error scikit-learn's vectorizer raises when fitting produces an
empty vocabulary. -/
inductive VectorizerError where
  | emptyVocabulary
deriving DecidableEq

open Classical in
/-- The matching-terms list: vocabulary entries with positive weight in
both rows, sorted by descending combined score, truncated to 20. -/
noncomputable def matchingTermsOf (vocab : List String) (ru jv : List ℝ) :
    List MatchingTerm :=
  let entries :=
    ((vocab.zip (ru.zip jv)).filter
      (fun p => decide (0 < p.2.1 ∧ 0 < p.2.2))).map
      (fun p => MatchingTerm.mk p.1 p.2.1 p.2.2 (p.2.1 * p.2.2))
  (List.insertionSort (fun m₁ m₂ => m₂.combined_score ≤ m₁.combined_score)
    entries).take 20

open Classical in
/-- `NLPProcessor.calculate_tfidf_similarity` on the two documents' token
lists. The `.error` branch models the `ValueError` scikit-learn raises
when both documents contribute no term at all. -/
noncomputable def calculate_tfidf_similarity (ta tb : List String) :
    Except VectorizerError TfidfResult :=
  let vocab := vocabulary ta tb
  if vocab.isEmpty then .error .emptyVocabulary
  else
    let ru := l2normalize (tfidfVector vocab (docFreq ta tb) ta)
    let jv := l2normalize (tfidfVector vocab (docFreq ta tb) tb)
    .ok { similarity_score := cosineSimR ru jv
          matching_terms := matchingTermsOf vocab ru jv
          resume_vector := ru
          jd_vector := jv }

/-! ## Semantic (sentence-embedding) similarity model -/

/-- Oracle for the external spaCy sentence splitter and the
sentence-embedding model. -/
structure BertOracle where
  sents : String → List String
  encode : String → List ℝ

structure SentenceAlignment where
  resume_sentence : String
  best_match : String
  similarity : ℝ

structure BertResult where
  document_similarity : ℝ
  sentence_similarities : List SentenceAlignment

/-- How a degenerate semantic-similarity request can terminate:
`insufficientContent` is the explicit condition the specification calls
for; `nanFromEmptyMean` is the numeric failure the code actually produces
(`np.mean` of an empty embedding array yields NaN, which the downstream
cosine-similarity validation rejects with a `ValueError`). -/
inductive SemanticFailure where
  | insufficientContent
  | nanFromEmptyMean
deriving DecidableEq

/-- Element-wise mean of a non-empty list of embedding vectors
(`np.mean(..., axis=0)`); `[]` for an empty list, whose real counterpart
is a NaN vector. -/
noncomputable def meanVec (vs : List (List ℝ)) : List ℝ :=
  match vs with
  | [] => []
  | v :: _ =>
    (List.range v.length).map
      (fun i => ((vs.map (fun w => w.getD i 0)).sum) / (vs.length : ℝ))

open Classical in
/-- The inner loop of `calculate_bert_similarity`: the best-matching
target sentence for one source embedding (strict improvement, so ties
keep the earliest target). -/
noncomputable def bestMatchFor (renc : List ℝ) (jd_sentences : List String)
    (encode : String → List ℝ) : String × ℝ :=
  jd_sentences.foldl
    (fun acc jsent =>
      let sim := cosineSimR renc (encode jsent)
      if acc.2 < sim then (jsent, sim) else acc)
    ("", 0)

open Classical in
/-- `NLPProcessor.calculate_bert_similarity`. Sentences with trimmed
length at most 10 are discarded; if either document then has no sentence
left, the source computes `np.mean` over an empty array and crashes in
the subsequent cosine-similarity call — modelled as `.error
.nanFromEmptyMean`. No `insufficientContent` report exists in the code. -/
noncomputable def calculate_bert_similarity (o : BertOracle)
    (resume_text jd_text : String) : Except SemanticFailure BertResult :=
  let resume_sentences :=
    (o.sents resume_text).filter (fun s => decide (10 < (pyStrip s).length))
  let jd_sentences :=
    (o.sents jd_text).filter (fun s => decide (10 < (pyStrip s).length))
  if resume_sentences.isEmpty || jd_sentences.isEmpty then
    .error .nanFromEmptyMean
  else
    .ok { document_similarity :=
            cosineSimR (meanVec (resume_sentences.map o.encode))
              (meanVec (jd_sentences.map o.encode))
          sentence_similarities :=
            resume_sentences.map (fun r =>
              let bm := bestMatchFor (o.encode r) jd_sentences o.encode
              SentenceAlignment.mk r bm.1 bm.2) }

/-! ## Keyword-extraction model -/

structure Keyword where
  keyword : String
  score : ℝ

open Classical in
/-- `NLPProcessor.extract_keywords` on the preprocessed token list: a
single-document `TfidfVectorizer(max_features=top_k*2, ngram_range=(1, 3))`
fit, positive-weight terms sorted by descending score, truncated to
`top_k`. When the token list contributes no term the vectorizer raises
its empty-vocabulary `ValueError`, modelled as the `.error` branch. -/
noncomputable def extract_keywords (ts : List String) (top_k : ℕ) :
    Except VectorizerError (List Keyword) :=
  let vocab := vocabularyOf (ngrams3 ts) (top_k * 2)
  if vocab.isEmpty then .error .emptyVocabulary
  else
    let raw := vocab.map (fun t =>
      ((ngrams3 ts).count t : ℝ) *
        idfSmooth 1 (if t ∈ ngrams3 ts then 1 else 0))
    let scores := l2normalize raw
    let keywords :=
      ((vocab.zip scores).filter (fun p => decide (0 < p.2))).map
        (fun p => Keyword.mk p.1 p.2)
    .ok ((List.insertionSort (fun k₁ k₂ => k₂.score ≤ k₁.score)
      keywords).take top_k)

/-! ## Definitions written from the specification's words

These mirror claim statements (not the source) and exist solely to be
compared against the source translations above. -/

/-- Modelled from the spec: the suggestion list as §4.4 words it — the
five blocks in fixed order with strict thresholds, falling back to the
affirmation message. -/
def suggestionsPerSpec (keyword_data : KeywordScoreData)
    (skill_data : SkillScoreData) (semantic_data : SemanticScoreData)
    (experience_data : ExperienceScoreData)
    (formatting_data : FormattingScoreData) : List String :=
  let base :=
    (if keyword_data.score < 60 ∧ keyword_data.missing_keywords ≠ [] then
      [suggestionKeywordMsg keyword_data.missing_keywords] else [])
    ++ (if skill_data.score < 70 ∧ skill_data.missing_skills ≠ [] then
      [suggestionSkillMsg skill_data.missing_skills] else [])
    ++ (if semantic_data.score < 50 then [semanticMsg] else [])
    ++ (if experience_data.score < 60 then [experienceMsg] else [])
    ++ (if formatting_data.score < 80 then
      formatting_data.issues.map fixFormattingMsg else [])
  if base = [] then [affirmationMsg] else base

/-- Modelled from the claim (C4): formatting score with a missing
structured-paragraph representation treated as an empty one (hence fewer
than 3 paragraphs, hence a 15-point deduction), clamped to `[0, 100]`. -/
def formattingScorePerClaim (rd : ResumeData) : ℚ :=
  let issuePenalty : ℚ := 10 * ((rd.metadata.getD []).length : ℚ)
  let lengthPenalty : ℚ :=
    if rd.text.length < 500 then 20
    else if 5000 < rd.text.length then 10 else 0
  let paragraphs :=
    (rd.structured_content.map (fun sc => sc.paragraphs.getD [])).getD []
  let structurePenalty : ℚ := if paragraphs.length < 3 then 15 else 0
  min (max (100 - issuePenalty - lengthPenalty - structurePenalty) 0) 100

/-- The formatting score as the code actually computes it, in closed
arithmetic form: the paragraph-structure deduction applies only when the
structured-content representation is present. -/
def formattingScoreAmended (rd : ResumeData) : ℚ :=
  let issuePenalty : ℚ := 10 * ((rd.metadata.getD []).length : ℚ)
  let lengthPenalty : ℚ :=
    if rd.text.length < 500 then 20
    else if 5000 < rd.text.length then 10 else 0
  let structurePenalty : ℚ :=
    match rd.structured_content with
    | some sc => if (sc.paragraphs.getD []).length < 3 then 15 else 0
    | none => 0
  max (100 - issuePenalty - lengthPenalty - structurePenalty) 0

/-- Modelled from the claim (C5): experience score reading "no structured
paragraphs are available" as "the list of available paragraphs is empty",
which includes a present-but-empty paragraph list. -/
def experienceScorePerClaim (o : NLPOracle)
    (structured_content : Option StructuredContent) (jd_text : String) : ℚ :=
  let paragraphs := (paragraphsOf structured_content).getD []
  if paragraphs.isEmpty then 30
  else
    let selected := experienceParagraphTexts paragraphs
    if selected.isEmpty then 20
    else 100 * o.bertSim (String.intercalate " " selected) jd_text

/-! ## Concrete fixtures used by witnesses and counterexamples -/

/-- A concrete oracle: no keywords, no spaCy-derived skills, both
similarity channels constantly `1/2`. -/
def oracleA : NLPOracle :=
  { extract_keywords := fun _ _ => []
    extract_skills_other := fun _ => []
    tfidfSim := fun _ _ => 1/2
    bertSim := fun _ _ => 1/2 }

/-- A résumé document with empty text and neither metadata nor
structured content. -/
def resumeEmpty : ResumeData :=
  { text := "", structured_content := none, metadata := none }

/-- A résumé document with empty text, no metadata, and a structured
content whose `paragraphs` entry is present but empty — exactly what the
DOCX extractor produces for a document with only blank paragraphs. -/
def resumeEmptyParagraphList : ResumeData :=
  { text := ""
    structured_content := some { paragraphs := some [] }
    metadata := none }

/-- A BERT oracle whose sentence splitter returns no sentences (as spaCy
does on empty text). -/
def bertOracleEmpty : BertOracle :=
  { sents := fun _ => [], encode := fun _ => [] }

/-! ## Helper lemmas -/

/-- Folding a nested guard into a conjunction (source style vs spec style
of the suggestion blocks). -/
theorem ite_nested_guard {α : Type} (P Q : Prop) [Decidable P] [Decidable Q]
    (x : List α) :
    (if P then (if Q then ([] : List α) else x) else []) =
      (if P ∧ ¬Q then x else []) := by
  split_ifs with h₁ h₂ h₃ h₄
  all_goals tauto

theorem pyRoundHalfEven_bounds {y : ℚ} (h0 : 0 ≤ y) (h1 : y ≤ 1000) :
    0 ≤ pyRoundHalfEven y ∧ pyRoundHalfEven y ≤ 1000 := by
  have hfl : (0 : ℤ) ≤ ⌊y⌋ := Int.floor_nonneg.mpr h0
  have hfu : ⌊y⌋ ≤ 1000 := by
    have := Int.floor_le_floor (α := ℚ) h1
    simpa using this
  have hsucc : 1/2 ≤ y - ⌊y⌋ → ⌊y⌋ + 1 ≤ 1000 := by
    intro h
    have hy : (⌊y⌋ : ℚ) ≤ 999.5 := by linarith
    have : ⌊y⌋ ≤ ⌊(999.5 : ℚ)⌋ := Int.le_floor.mpr hy
    have h999 : ⌊(999.5 : ℚ)⌋ = 999 := by
      rw [Int.floor_eq_iff]
      all_goals norm_num
    omega
  unfold pyRoundHalfEven
  split_ifs with h₁ h₂ h₃
  · exact ⟨hfl, hfu⟩
  · exact ⟨by omega, hsucc (by linarith)⟩
  · exact ⟨hfl, hfu⟩
  · exact ⟨by omega, hsucc (by linarith)⟩

theorem pyRound1_bounds {x : ℚ} (h0 : 0 ≤ x) (h1 : x ≤ 100) :
    0 ≤ pyRound1 x ∧ pyRound1 x ≤ 100 := by
  obtain ⟨hl, hu⟩ := pyRoundHalfEven_bounds (y := x * 10)
    (by linarith) (by linarith)
  unfold pyRound1
  constructor
  · positivity
  · have : ((pyRoundHalfEven (x * 10) : ℚ)) ≤ 1000 := by exact_mod_cast hu
    linarith

theorem keyword_score_bounds (o : NLPOracle) (resume_text jd_text : String) :
    0 ≤ (calculate_keyword_score o resume_text jd_text).score ∧
      (calculate_keyword_score o resume_text jd_text).score ≤ 100 := by
  simp only [calculate_keyword_score]
  split_ifs with h
  · constructor
    · apply le_min _ (by norm_num)
      positivity
    · exact min_le_right _ _
  · norm_num

theorem skill_score_bounds (o : NLPOracle) (resume_text jd_text : String) :
    0 ≤ (calculate_skill_score o resume_text jd_text).score ∧
      (calculate_skill_score o resume_text jd_text).score ≤ 100 := by
  simp only [calculate_skill_score]
  split_ifs with h
  · constructor
    · apply le_min _ (by norm_num)
      positivity
    · exact min_le_right _ _
  · norm_num

theorem semantic_score_bounds (o : NLPOracle) (resume_text jd_text : String)
    (ht : 0 ≤ o.tfidfSim resume_text jd_text ∧
      o.tfidfSim resume_text jd_text ≤ 1)
    (hb : 0 ≤ o.bertSim resume_text jd_text ∧
      o.bertSim resume_text jd_text ≤ 1) :
    0 ≤ (calculate_semantic_score o resume_text jd_text).score ∧
      (calculate_semantic_score o resume_text jd_text).score ≤ 100 := by
  obtain ⟨ht0, ht1⟩ := ht
  obtain ⟨hb0, hb1⟩ := hb
  simp only [calculate_semantic_score]
  constructor <;> nlinarith

theorem experience_score_bounds (o : NLPOracle)
    (structured_content : Option StructuredContent) (jd_text : String)
    (hb : ∀ a b, 0 ≤ o.bertSim a b ∧ o.bertSim a b ≤ 1) :
    0 ≤ (calculate_experience_score o structured_content jd_text).score ∧
      (calculate_experience_score o structured_content jd_text).score ≤ 100 := by
  unfold calculate_experience_score
  cases hp : paragraphsOf structured_content with
  | none => norm_num
  | some paragraphs =>
    simp only
    split_ifs with h
    · norm_num
    · obtain ⟨h0, h1⟩ := hb
        (String.intercalate " " (experienceParagraphTexts paragraphs)) jd_text
      dsimp only
      constructor <;> nlinarith

theorem formatting_score_bounds (rd : ResumeData) :
    0 ≤ (calculate_formatting_score rd).score ∧
      (calculate_formatting_score rd).score ≤ 100 := by
  have hlen : (0 : ℚ) ≤ ((rd.metadata.getD []).length : ℚ) := by positivity
  simp only [calculate_formatting_score]
  constructor
  · exact le_max_right _ _
  · apply max_le _ (by norm_num)
    cases rd.structured_content <;>
      · dsimp only
        split_ifs <;> dsimp only <;> linarith

theorem orderedInsert_congr {α : Type} {r s : α → α → Prop} [DecidableRel r]
    [DecidableRel s] (h : ∀ a b, r a b ↔ s a b) (b : α) :
    ∀ l : List α, List.orderedInsert r b l = List.orderedInsert s b l
  | [] => rfl
  | x :: xs => by
    simp only [List.orderedInsert]
    exact if_congr (h b x) rfl (congrArg (x :: ·) (orderedInsert_congr h b xs))

theorem insertionSort_congr {α : Type} {r s : α → α → Prop} [DecidableRel r]
    [DecidableRel s] (h : ∀ a b, r a b ↔ s a b) :
    ∀ l : List α, List.insertionSort r l = List.insertionSort s l
  | [] => rfl
  | x :: xs => by
    simp only [List.insertionSort]
    rw [insertionSort_congr h xs, orderedInsert_congr h x]

/-- Sorting with the total antisymmetric string order is invariant under
permutation of the input. -/
theorem insertionSort_strRel_eq_of_perm {l₁ l₂ : List String} (h : l₁.Perm l₂) :
    List.insertionSort strRel l₁ = List.insertionSort strRel l₂ :=
  List.eq_of_perm_of_sorted
    ((List.perm_insertionSort _ _).trans
      (h.trans (List.perm_insertionSort _ _).symm))
    (List.sorted_insertionSort _ _) (List.sorted_insertionSort _ _)

theorem countOrder_ext {pool₁ pool₂ : List String} (h : pool₁.Perm pool₂) :
    ∀ a b, countOrder pool₁ a b ↔ countOrder pool₂ a b := by
  intro a b
  unfold countOrder
  rw [h.count_eq a, h.count_eq b]

theorem vocabularyOf_perm {pool₁ pool₂ : List String} (h : pool₁.Perm pool₂)
    (cap : ℕ) : vocabularyOf pool₁ cap = vocabularyOf pool₂ cap := by
  simp only [vocabularyOf]
  rw [insertionSort_strRel_eq_of_perm h, insertionSort_congr (countOrder_ext h)]

theorem vocabulary_comm (ta tb : List String) :
    vocabulary ta tb = vocabulary tb ta :=
  vocabularyOf_perm List.perm_append_comm 1000

theorem docFreq_comm (ta tb : List String) : docFreq ta tb = docFreq tb ta := by
  funext t
  unfold docFreq
  exact add_comm _ _

theorem dotR_comm (u v : List ℝ) : dotR u v = dotR v u := by
  unfold dotR
  rw [List.zipWith_comm_of_comm _ mul_comm]

theorem cosineSimR_comm (u v : List ℝ) : cosineSimR u v = cosineSimR v u := by
  unfold cosineSimR
  rcases eq_or_ne (dotR u u) 0 with h₁ | h₁ <;>
    rcases eq_or_ne (dotR v v) 0 with h₂ | h₂ <;>
      simp [h₁, h₂, dotR_comm u v, mul_comm]

theorem dotR_zero_left {v : List ℝ} (hv : ∀ x ∈ v, x = 0) (w : List ℝ) :
    dotR v w = 0 := by
  induction v generalizing w with
  | nil => simp [dotR]
  | cons x xs ih =>
    cases w with
    | nil => simp [dotR]
    | cons y ys =>
      have hx : x = 0 := hv x (by simp)
      have hxs : ∀ z ∈ xs, z = 0 := fun z hz => hv z (by simp [hz])
      simpa [dotR, hx] using ih hxs ys

theorem dotR_zero_right {v : List ℝ} (hv : ∀ x ∈ v, x = 0) (w : List ℝ) :
    dotR w v = 0 := by
  rw [dotR_comm]
  exact dotR_zero_left hv w

theorem tfidfVector_nil_mem (vocab : List String) (df : String → ℕ) :
    ∀ x ∈ tfidfVector vocab df [], x = 0 := by
  intro x hx
  unfold tfidfVector at hx
  obtain ⟨t, _, rfl⟩ := List.mem_map.mp hx
  have hng : ngrams2 ([] : List String) = [] := rfl
  simp [hng]

theorem l2normalize_of_zero {v : List ℝ} (hv : dotR v v = 0) :
    l2normalize v = v := by
  unfold l2normalize
  rw [if_pos hv]

theorem matchingTermsOf_zero_left (vocab : List String) {ru : List ℝ}
    (h : ∀ x ∈ ru, x = 0) (jv : List ℝ) :
    matchingTermsOf vocab ru jv = [] := by
  unfold matchingTermsOf
  have hfil : (vocab.zip (ru.zip jv)).filter
      (fun p => decide (0 < p.2.1 ∧ 0 < p.2.2)) = [] := by
    apply List.filter_eq_nil_iff.mpr
    rintro ⟨a, b, c⟩ hp
    have hbc := (List.of_mem_zip hp).2
    have hb : b ∈ ru := (List.of_mem_zip hbc).1
    simp [h b hb]
  rw [hfil]
  rfl

theorem matchingTermsOf_zero_right (vocab : List String) (ru : List ℝ)
    {jv : List ℝ} (h : ∀ x ∈ jv, x = 0) :
    matchingTermsOf vocab ru jv = [] := by
  unfold matchingTermsOf
  have hfil : (vocab.zip (ru.zip jv)).filter
      (fun p => decide (0 < p.2.1 ∧ 0 < p.2.2)) = [] := by
    apply List.filter_eq_nil_iff.mpr
    rintro ⟨a, b, c⟩ hp
    have hbc := (List.of_mem_zip hp).2
    have hc : c ∈ jv := (List.of_mem_zip hbc).2
    simp [h c hc]
  rw [hfil]
  rfl

theorem pyDedup_foldl_length {α : Type} [DecidableEq α] (l : List α) :
    ∀ acc : List α,
      acc.length ≤
        (l.foldl (fun acc x => if x ∈ acc then acc else acc ++ [x]) acc).length := by
  induction l with
  | nil => intro acc; simp
  | cons x xs ih =>
    intro acc
    simp only [List.foldl]
    split_ifs with h
    · exact ih acc
    · exact le_trans (by simp) (ih (acc ++ [x]))

theorem pyDedup_ne_nil {α : Type} [DecidableEq α] {l : List α} (h : l ≠ []) :
    pyDedup l ≠ [] := by
  cases l with
  | nil => exact absurd rfl h
  | cons x xs =>
    have he : pyDedup (x :: xs) =
        xs.foldl (fun acc y => if y ∈ acc then acc else acc ++ [y]) [x] := by
      simp [pyDedup]
    intro hc
    have hlen := pyDedup_foldl_length xs [x]
    rw [← he, hc] at hlen
    simp at hlen

theorem ngrams2_ne_nil {ts : List String} (h : ts ≠ []) : ngrams2 ts ≠ [] := by
  cases ts with
  | nil => exact absurd rfl h
  | cons x xs => simp [ngrams2]

theorem vocabularyOf_ne_nil {pool : List String} (h : pool ≠ []) {cap : ℕ}
    (hcap : 0 < cap) : vocabularyOf pool cap ≠ [] := by
  simp only [vocabularyOf]
  have hsort : List.insertionSort strRel pool ≠ [] := by
    intro hc
    have hp := List.perm_insertionSort strRel pool
    rw [hc] at hp
    exact h hp.nil_eq.symm
  have hd : pyDedup (List.insertionSort strRel pool) ≠ [] := pyDedup_ne_nil hsort
  split_ifs with hlen
  · exact hd
  · intro hc
    have hp := List.perm_insertionSort strRel
      ((List.insertionSort (countOrder pool)
        (pyDedup (List.insertionSort strRel pool))).take cap)
    rw [hc] at hp
    have htake := hp.nil_eq.symm
    have hlen2 : (List.insertionSort (countOrder pool)
        (pyDedup (List.insertionSort strRel pool))).length =
        (pyDedup (List.insertionSort strRel pool)).length :=
      (List.perm_insertionSort _ _).length_eq
    have := congrArg List.length htake
    rw [List.length_take, hlen2] at this
    simp only [List.length_nil] at this
    omega

/-! ## Claim theorems -/

/-- C1. For every scoring request (any oracle, résumé document and job
description, with both similarity channels in their documented `[0, 1]`
range), the `total_score` returned by `calculate_ats_score` equals the
weighted sum of the five sub-scores with fixed weights keyword `0.30`,
skill `0.25`, semantic `0.20`, experience `0.15`, formatting `0.10`,
rounded to one decimal, and always lies in `[0, 100]`. -/
theorem totalScore_weighted_sum_and_bounded (o : NLPOracle)
    (rd : ResumeData) (jd_text : String)
    (ht : ∀ a b, 0 ≤ o.tfidfSim a b ∧ o.tfidfSim a b ≤ 1)
    (hb : ∀ a b, 0 ≤ o.bertSim a b ∧ o.bertSim a b ≤ 1) :
    (calculate_ats_score o rd jd_text).total_score =
      pyRound1
        ((calculate_ats_score o rd jd_text).keyword_match.score * 0.30 +
         (calculate_ats_score o rd jd_text).skill_match.score * 0.25 +
         (calculate_ats_score o rd jd_text).semantic_similarity.score * 0.20 +
         (calculate_ats_score o rd jd_text).experience_relevance.score * 0.15 +
         (calculate_ats_score o rd jd_text).formatting_quality.score * 0.10) ∧
    0 ≤ (calculate_ats_score o rd jd_text).total_score ∧
    (calculate_ats_score o rd jd_text).total_score ≤ 100 := by
  obtain ⟨hk0, hk1⟩ := keyword_score_bounds o rd.text jd_text
  obtain ⟨hs0, hs1⟩ := skill_score_bounds o rd.text jd_text
  obtain ⟨hm0, hm1⟩ := semantic_score_bounds o rd.text jd_text
    (ht rd.text jd_text) (hb rd.text jd_text)
  obtain ⟨he0, he1⟩ := experience_score_bounds o rd.structured_content jd_text hb
  obtain ⟨hf0, hf1⟩ := formatting_score_bounds rd
  have hx : (calculate_ats_score o rd jd_text).total_score =
      pyRound1
        ((calculate_keyword_score o rd.text jd_text).score * 0.30 +
         (calculate_skill_score o rd.text jd_text).score * 0.25 +
         (calculate_semantic_score o rd.text jd_text).score * 0.20 +
         (calculate_experience_score o rd.structured_content jd_text).score * 0.15 +
         (calculate_formatting_score rd).score * 0.10) := rfl
  refine ⟨rfl, ?_, ?_⟩
  · rw [hx]
    exact (pyRound1_bounds (by linarith) (by linarith)).1
  · rw [hx]
    exact (pyRound1_bounds (by linarith) (by linarith)).2

/-- Witness for C1 at a concrete oracle and document. -/
theorem totalScore_weighted_sum_and_bounded_witness :
    (calculate_ats_score oracleA resumeEmpty "").total_score =
      pyRound1
        ((calculate_ats_score oracleA resumeEmpty "").keyword_match.score * 0.30 +
         (calculate_ats_score oracleA resumeEmpty "").skill_match.score * 0.25 +
         (calculate_ats_score oracleA resumeEmpty "").semantic_similarity.score * 0.20 +
         (calculate_ats_score oracleA resumeEmpty "").experience_relevance.score * 0.15 +
         (calculate_ats_score oracleA resumeEmpty "").formatting_quality.score * 0.10) ∧
    0 ≤ (calculate_ats_score oracleA resumeEmpty "").total_score ∧
    (calculate_ats_score oracleA resumeEmpty "").total_score ≤ 100 :=
  totalScore_weighted_sum_and_bounded oracleA resumeEmpty ""
    (fun _ _ => by constructor <;> norm_num [oracleA])
    (fun _ _ => by constructor <;> norm_num [oracleA])

/-- C2. Suggestion generation emits its suggestions in the fixed order
keyword, skill, semantic, experience, formatting with the strict
thresholds `< 60`, `< 70`, `< 50`, `< 60`, `< 80` (the equality with the
spec-side block list), the result is never empty, and a keyword score of
exactly 60 cannot trigger the keyword suggestion (the output is the same
as if there were no missing keywords at all). -/
theorem suggestions_order_thresholds_nonempty (keyword_data : KeywordScoreData)
    (skill_data : SkillScoreData) (semantic_data : SemanticScoreData)
    (experience_data : ExperienceScoreData)
    (formatting_data : FormattingScoreData) :
    generate_suggestions keyword_data skill_data semantic_data
        experience_data formatting_data =
      suggestionsPerSpec keyword_data skill_data semantic_data
        experience_data formatting_data ∧
    generate_suggestions keyword_data skill_data semantic_data
        experience_data formatting_data ≠ [] ∧
    (keyword_data.score = 60 →
      generate_suggestions keyword_data skill_data semantic_data
          experience_data formatting_data =
        generate_suggestions { keyword_data with missing_keywords := [] }
          skill_data semantic_data experience_data formatting_data) := by
  refine ⟨?_, ?_, ?_⟩
  · simp only [generate_suggestions, suggestionsPerSpec, ite_nested_guard]
  · simp only [generate_suggestions]
    split_ifs <;> simp_all
  · intro h
    simp only [generate_suggestions, h]
    norm_num

/-- Witness for C2: at a keyword score of exactly 60 the output ignores
the missing-keyword list, and it is non-empty. -/
theorem suggestions_order_thresholds_nonempty_witness :
    generate_suggestions (KeywordScoreData.mk 60 [] ["python"] 1 0)
        (SkillScoreData.mk 80 [] [] [] [] 0 0) (SemanticScoreData.mk 90 90 90)
        (ExperienceScoreData.mk 70 none none) (FormattingScoreData.mk 100 []) =
      generate_suggestions (KeywordScoreData.mk 60 [] [] 1 0)
        (SkillScoreData.mk 80 [] [] [] [] 0 0) (SemanticScoreData.mk 90 90 90)
        (ExperienceScoreData.mk 70 none none) (FormattingScoreData.mk 100 []) ∧
    generate_suggestions (KeywordScoreData.mk 60 [] ["python"] 1 0)
        (SkillScoreData.mk 80 [] [] [] [] 0 0) (SemanticScoreData.mk 90 90 90)
        (ExperienceScoreData.mk 70 none none)
        (FormattingScoreData.mk 100 []) ≠ [] :=
  ⟨((suggestions_order_thresholds_nonempty _ _ _ _ _).2.2) rfl,
   (suggestions_order_thresholds_nonempty _ _ _ _ _).2.1⟩

/-- C3. The skill-match sub-score equals
`min(100, 100 * |matched| / |jdAllSkills|)` over the flattened
lower-cased skill sets, and equals exactly 50 whenever the job
description yields zero detected skills, regardless of résumé content. -/
theorem skill_score_formula_and_default (o : NLPOracle)
    (resume_text jd_text : String) :
    (0 < (jdAllSkillsOf o jd_text).length →
      (calculate_skill_score o resume_text jd_text).score =
        min 100 (100 * ((matchedSkillsOf o resume_text jd_text).length : ℚ) /
          ((jdAllSkillsOf o jd_text).length : ℚ))) ∧
    ((jdAllSkillsOf o jd_text).length = 0 →
      (calculate_skill_score o resume_text jd_text).score = 50) := by
  constructor
  · intro h
    simp only [calculate_skill_score, if_pos h]
    rw [min_comm]
    congr 1
    ring
  · intro h
    simp only [calculate_skill_score, h, lt_irrefl, if_false]

/-- Witness for C3: a job description detecting the skills `python` and
`java` against a résumé containing only `python` scores `min(100, 100·1/2)`. -/
theorem skill_score_formula_and_default_witness :
    (calculate_skill_score oracleA "python" "python and java").score =
      min 100 (100 * ((matchedSkillsOf oracleA "python" "python and java").length : ℚ) /
        ((jdAllSkillsOf oracleA "python and java").length : ℚ)) :=
  (skill_score_formula_and_default oracleA "python" "python and java").1
    (by decide)

/-- C7 (code-bug evidence). When a text yields zero qualifying sentences
(for example spaCy finds no sentences in empty text), the semantic
similarity module terminates with the numeric NaN failure inherited from
`np.mean` of an empty array — not with the explicit insufficient-content
condition the specification requires; the two conditions are distinct. -/
theorem bert_zero_sentences_numeric_failure :
    calculate_bert_similarity bertOracleEmpty "" "" =
      .error .nanFromEmptyMean ∧
    SemanticFailure.nanFromEmptyMean ≠ SemanticFailure.insufficientContent := by
  constructor
  · rfl
  · decide

/-- C8 (code-bug evidence). On empty text, `extract_skills` indeed
returns all-empty skill sets without error, but `extract_keywords`
terminates with the vectorizer's empty-vocabulary error instead of
returning an empty keyword list. -/
theorem extract_on_empty_text_behaviour :
    extract_skills "" [] =
      [("programming_languages", []), ("web_technologies", []),
       ("databases", []), ("cloud_platforms", []), ("tools", []),
       ("other", [])] ∧
    extract_keywords [] 20 = .error .emptyVocabulary := by
  constructor
  · decide
  · rfl

/-- C4 counterexample: on a document whose structured-content
representation is missing entirely (empty text, no metadata), the code's
formatting score is 80 — the paragraph-structure deduction is skipped —
while the claim's formula, which treats a missing representation as
empty (fewer than 3 paragraphs, hence a 15-point deduction), gives 65. -/
theorem formatting_missing_structured_content_cex :
    (calculate_formatting_score resumeEmpty).score ≠
      formattingScorePerClaim resumeEmpty := by
  norm_num [calculate_formatting_score, formattingScorePerClaim, resumeEmpty]

/-- C4 amended. The formatting score starts at 100, subtracts 10 per
reported formatting issue, 20 if the text is shorter than 500 characters,
10 if longer than 5000, and 15 for fewer than 3 structured paragraphs
only when the structured-content representation is present (a document
missing it entirely incurs no paragraph-structure deduction and no
error); the result lies in `[0, 100]`. -/
theorem formatting_score_amended_formula (rd : ResumeData) :
    (calculate_formatting_score rd).score = formattingScoreAmended rd ∧
    0 ≤ (calculate_formatting_score rd).score ∧
    (calculate_formatting_score rd).score ≤ 100 := by
  refine ⟨?_, (formatting_score_bounds rd).1, (formatting_score_bounds rd).2⟩
  simp only [calculate_formatting_score, formattingScoreAmended]
  cases rd.structured_content <;>
    · dsimp only
      split_ifs <;> simp_all <;> ring_nf

/-- C5 counterexample: on a document whose structured content carries a
present-but-empty paragraph list (which the DOCX extractor produces for a
document with only blank paragraphs), the code scores 20, while the
claim's first clause — no structured paragraphs are available ⇒ score
exactly 30 — demands 30. -/
theorem experience_empty_paragraph_list_cex :
    (calculate_experience_score oracleA
        (some { paragraphs := some [] }) "").score ≠
      experienceScorePerClaim oracleA (some { paragraphs := some [] }) "" := by
  norm_num [calculate_experience_score, experienceScorePerClaim,
    paragraphsOf, experienceParagraphTexts]

/-- C5 amended. The experience sub-score is 30 with the details flag
exactly when the structured content is missing or lacks a paragraphs
entry; when a (possibly empty) paragraph list is present it is 20 if no
paragraph's lower-cased text contains an experience-indicator word, and
otherwise 100 times the document-level similarity of the concatenated
selected paragraphs against the job description. -/
theorem experience_score_amended (o : NLPOracle)
    (structured_content : Option StructuredContent) (jd_text : String) :
    (paragraphsOf structured_content = none →
      calculate_experience_score o structured_content jd_text =
        { score := 30, details := some "Unable to analyze experience structure",
          experience_paragraphs_count := none }) ∧
    (∀ paragraphs, paragraphsOf structured_content = some paragraphs →
      experienceParagraphTexts paragraphs = [] →
      (calculate_experience_score o structured_content jd_text).score = 20) ∧
    (∀ paragraphs, paragraphsOf structured_content = some paragraphs →
      experienceParagraphTexts paragraphs ≠ [] →
      (calculate_experience_score o structured_content jd_text).score =
        o.bertSim
          (String.intercalate " " (experienceParagraphTexts paragraphs))
          jd_text * 100) := by
  unfold calculate_experience_score
  refine ⟨?_, ?_, ?_⟩
  · intro h
    rw [h]
  · intro ps h hsel
    rw [h]
    simp [hsel]
  · intro ps h hsel
    rw [h]
    simp [List.isEmpty_iff, hsel]

/-- Witness for C5 amended: a document with no structured content at all
scores 30 with the details flag. -/
theorem experience_score_amended_witness :
    calculate_experience_score oracleA none "" =
      { score := 30, details := some "Unable to analyze experience structure",
        experience_paragraphs_count := none } :=
  (experience_score_amended oracleA none "").1 rfl

/-- C10. Catalog skill detection is raw substring containment with no
word-boundary check: any text whose lower-cased form contains `"r"`
anywhere is reported as having the programming language `r`, and any text
containing `"go"` as a substring is reported as having `go`. -/
theorem skill_detection_by_raw_substring (text : String) (other : List String) :
    (pyIn "r" (pyLower text) = true →
      "r" ∈ (((extract_skills text other).lookup "programming_languages").getD [])) ∧
    (pyIn "go" (pyLower text) = true →
      "go" ∈ (((extract_skills text other).lookup "programming_languages").getD [])) := by
  have hlk : ((extract_skills text other).lookup "programming_languages").getD [] =
      ["python", "java", "javascript", "c++", "c#", "ruby", "php", "swift",
       "kotlin", "typescript", "go", "rust", "scala", "r", "matlab", "perl",
       "vb.net"].filter (fun s => pyIn s (pyLower text)) := rfl
  constructor <;>
    · intro h
      rw [hlk]
      exact List.mem_filter.mpr ⟨by decide, h⟩

/-- Witness for C10: the text `"Developer using Django"` contains `"r"`
(inside `Developer`) and `"go"` (inside `Django`), so both single-token
catalog entries are reported as detected programming languages. -/
theorem skill_detection_by_raw_substring_witness :
    "r" ∈ (((extract_skills "Developer using Django" []).lookup
      "programming_languages").getD []) ∧
    "go" ∈ (((extract_skills "Developer using Django" []).lookup
      "programming_languages").getD []) :=
  ⟨(skill_detection_by_raw_substring "Developer using Django" []).1 (by decide),
   (skill_detection_by_raw_substring "Developer using Django" []).2 (by decide)⟩

/-- C6 counterexample: when both texts have zero extractable terms, the
vectorizer fit terminates with the empty-vocabulary error — it does not
return a result with similarity 0 and an empty matching-term list, as the
claim ("if either text has zero extractable terms") demands. -/
theorem tfidf_both_empty_cex :
    calculate_tfidf_similarity [] [] = .error .emptyVocabulary ∧
    (calculate_tfidf_similarity [] []).map
        (fun r => (r.similarity_score, r.matching_terms)) ≠
      .ok ((0 : ℝ), ([] : List MatchingTerm)) := by
  constructor
  · rfl
  · intro hc
    rw [show calculate_tfidf_similarity [] [] = .error .emptyVocabulary from rfl]
      at hc
    simp [Except.map] at hc

/-- C6 amended. When exactly one of the two texts has zero extractable
terms after preprocessing, the lexical similarity is 0 with an empty
matching-term list (the degenerate zero-norm vector yields cosine
similarity 0 rather than a division by zero); when both are empty the
vectorizer raises its empty-vocabulary error instead. -/
theorem tfidf_single_empty_zero_similarity (ta tb : List String)
    (h : (ta = [] ∧ tb ≠ []) ∨ (ta ≠ [] ∧ tb = [])) :
    (calculate_tfidf_similarity ta tb).map
      (fun r => (r.similarity_score, r.matching_terms)) =
      .ok ((0 : ℝ), ([] : List MatchingTerm)) := by
  have hvoc : vocabulary ta tb ≠ [] := by
    apply vocabularyOf_ne_nil ?_ (by norm_num)
    rcases h with ⟨h1, h2⟩ | ⟨h1, h2⟩
    · subst h1
      simpa [ngrams2] using ngrams2_ne_nil h2
    · subst h2
      simpa [ngrams2] using ngrams2_ne_nil h1
  simp only [calculate_tfidf_similarity]
  rw [if_neg (by simpa [List.isEmpty_iff] using hvoc)]
  simp only [Except.map]
  rcases h with ⟨h1, _⟩ | ⟨_, h2⟩
  · subst h1
    have hz : ∀ x ∈ l2normalize
        (tfidfVector (vocabulary [] tb) (docFreq [] tb) []), x = 0 := by
      have hzz := tfidfVector_nil_mem (vocabulary [] tb) (docFreq [] tb)
      rw [l2normalize_of_zero (dotR_zero_left hzz _)]
      exact hzz
    have hsim : cosineSimR
        (l2normalize (tfidfVector (vocabulary [] tb) (docFreq [] tb) []))
        (l2normalize (tfidfVector (vocabulary [] tb) (docFreq [] tb) tb)) = 0 := by
      unfold cosineSimR
      rw [if_pos (Or.inl (dotR_zero_left hz _))]
    rw [hsim, matchingTermsOf_zero_left _ hz _]
  · subst h2
    have hz : ∀ x ∈ l2normalize
        (tfidfVector (vocabulary ta []) (docFreq ta []) []), x = 0 := by
      have hzz := tfidfVector_nil_mem (vocabulary ta []) (docFreq ta [])
      rw [l2normalize_of_zero (dotR_zero_left hzz _)]
      exact hzz
    have hsim : cosineSimR
        (l2normalize (tfidfVector (vocabulary ta []) (docFreq ta []) ta))
        (l2normalize (tfidfVector (vocabulary ta []) (docFreq ta []) [])) = 0 := by
      unfold cosineSimR
      rw [if_pos (Or.inr (dotR_zero_left hz _))]
    rw [hsim, matchingTermsOf_zero_right _ _ hz]

/-- Witness for C6 amended: empty résumé tokens against a one-token job
description give similarity 0 and no matching terms. -/
theorem tfidf_single_empty_zero_similarity_witness :
    (calculate_tfidf_similarity [] ["hello"]).map
      (fun r => (r.similarity_score, r.matching_terms)) =
      .ok ((0 : ℝ), ([] : List MatchingTerm)) :=
  tfidf_single_empty_zero_similarity [] ["hello"]
    (Or.inl ⟨rfl, by decide⟩)

/-- C9. The lexical similarity score is symmetric in its two arguments
(including the degenerate case, where both orders fail with the same
empty-vocabulary error): the fitted vocabulary, document frequencies and
cosine are all invariant under swapping the two documents. -/
theorem tfidf_similarity_symmetric (ta tb : List String) :
    (calculate_tfidf_similarity ta tb).map TfidfResult.similarity_score =
      (calculate_tfidf_similarity tb ta).map TfidfResult.similarity_score := by
  simp only [calculate_tfidf_similarity]
  rw [vocabulary_comm tb ta, docFreq_comm tb ta]
  by_cases hv : (vocabulary ta tb).isEmpty
  · rw [if_pos hv, if_pos hv]
  · rw [if_neg hv, if_neg hv]
    simp only [Except.map]
    rw [cosineSimR_comm]

end ATS
